import Mathlib

/-!
Verification of the `influxd` entry point (`cmd/influxd/main.go`) of the
influxdb repository: command dispatch, error wrapping, the version
subcommand, and the shutdown coordinator of the run mode.

The Go source is shallowly embedded: straight-line code becomes pure
functions producing an effect trace, the concurrent shutdown coordinator
becomes a small-step state machine driven by an explicit schedule of
external events, and Go errors become an inductive with a message and an
optional wrapped error (the chain read by errors.Unwrap).
-/

namespace Influxd

/-- Model of a Go `error` value: a message plus the optional wrapped error
that `errors.Unwrap` would return.  `fmt.Errorf` with a `%w` verb would
produce `wrap`; with `%s` it produces `base` (no wrapped error). -/
inductive GoError where
| base (msg : String)
| wrap (msg : String) (inner : GoError)
deriving DecidableEq, Repr

/-- `err.Error()`: the message of an error. -/
def GoError.msg : GoError → String
| .base m => m
| .wrap m _ => m

/-- `errors.Unwrap(err)`: the wrapped error, if any. -/
def GoError.Unwrap : GoError → Option GoError
| .base _ => none
| .wrap _ e => some e

/-- The errors reachable from `e` by repeatedly applying `errors.Unwrap`
(excluding `e` itself): everything recoverable by error chaining. -/
def GoError.chain : GoError → List GoError
| .base _ => []
| .wrap _ e => e :: e.chain

/-- `fmt.Errorf(pre ++ "%s", err)`: the `%s` verb formats the message text
only, so the result is a `base` error — nothing is wrapped.  This is the
form used on every dispatch branch of `Main.Run` (e.g.
`fmt.Errorf("backup: %s", err)`). -/
def errorfS (pre : String) (e : GoError) : GoError :=
GoError.base (pre ++ e.msg)

/-! ### The Go `flag` package on an empty flag set

`VersionCommand.Run` builds `flag.NewFlagSet("", flag.ContinueOnError)`
with no flags defined and calls `fs.Parse(args)`.  With an empty flag set,
`parseOne` either stops successfully at the first non-flag token (or at
`--`, or at the end of the arguments), or fails on the first flag-like
token: `-h`/`-help`/`--h`/`--help` yield `flag.ErrHelp`, a malformed token
yields a bad-syntax error, and any other flag yields "flag provided but
not defined".  A flag is never successfully consumed, so only the first
token can decide the result. -/

/-- The ways `fs.Parse` can fail for a flag set with no defined flags. -/
inductive FlagError where
| errHelp
| badSyntax (s : String)
| notDefined (name : String)
deriving DecidableEq, Repr

/-- The message of each flag error, as produced by the Go flag package. -/
def flagErrMsg : FlagError → String
| .errHelp => "flag: help requested"
| .badSyntax s => "bad flag syntax: " ++ s
| .notDefined n => "flag provided but not defined: -" ++ n

/-- One step of `flag.(*FlagSet).parseOne` on an empty flag set, on the
first argument token (as a character list).  Mirrors the Go code: tokens
shorter than two characters or not starting with `-` stop parsing; `--`
alone terminates; a name starting with `-` or `=` is bad syntax; the name
before any `=` is looked up (always absent here), with `h` and `help`
special-cased to `flag.ErrHelp`. -/
def parseOneEmpty : List Char → Option FlagError
| [] => none
| [_] => none
| c1 :: c2 :: cs =>
  if c1 ≠ '-' then none
  else if c2 = '-' ∧ cs = [] then none
  else
    match (if c2 = '-' then cs else c2 :: cs) with
    | [] => none
    | n0 :: ns =>
      if n0 = '-' ∨ n0 = '=' then some (FlagError.badSyntax (String.mk (c1 :: c2 :: cs)))
      else
        match ( (n0 :: ns).takeWhile (fun c => c ≠ '=')) with
        | nm =>
          if nm = "help".data ∨ nm = ['h'] then some FlagError.errHelp
          else some (FlagError.notDefined (String.mk nm))

/-- `fs.Parse(args)` for a flag set with no defined flags: with no flag
ever successfully consumed, the loop inspects at most the first token. -/
def flagParse : List String → Option FlagError
| [] => none
| s :: _ => parseOneEmpty s.data

/-! ### The version subcommand -/

/-- The `init` function of main.go: a build-time-injected variable that is
unset (empty) is replaced by "unknown". -/
def initVar (s : String) : String :=
if s = "" then "unknown" else s

/-- The line written by `VersionCommand.Run`:
`fmt.Fprintf(cmd.Stdout, "InfluxDB v%s (git: %s %s)\n", version, branch, commit)`. -/
def versionLine (version branch commit : String) : String :=
"InfluxDB v" ++ version ++ " (git: " ++ branch ++ " " ++ commit ++ ")\n"

/-- The usage text `versionUsage` printed by the overridden `fs.Usage`. -/
def versionUsage : String :=
"Displays the InfluxDB version, build branch and git commit hash.\n\nUsage: influxd version\n"

/-- Result of running the version subcommand: its return value and what it
wrote to standard output and standard error. -/
structure VersionOut where
  result : Option GoError
  stdout : List String
  stderr : List String
deriving DecidableEq, Repr

/-- What the flag package writes to standard error on each parse failure:
`failf` prints the error message and then the usage; `-h` prints only the
usage (the `fs.Usage` hook, which main.go overrides to print
`versionUsage`). -/
def flagErrStderr : FlagError → List String
| .errHelp => [versionUsage]
| e => [flagErrMsg e, versionUsage]

/-- `VersionCommand.Run`: parse the flags (so that `-h` is handled); on a
parse error return it; otherwise print the version line and return nil. -/
def VersionCommandRun (version branch commit : String) (args : List String) : VersionOut :=
match flagParse args with
| some e =>
  { result := some (GoError.base (flagErrMsg e)),
    stdout := [],
    stderr := flagErrStderr e }
| none =>
  { result := none,
    stdout := [versionLine version branch commit],
    stderr := [] }

/-! ### The shutdown coordinator of run mode

The run branch of `Main.Run` (main.go lines 93-114):

  signalCh := make(chan os.Signal, 1)
  signal.Notify(signalCh, os.Interrupt, syscall.SIGTERM)
  m.Logger.Info("Listening for signals")
  <-signalCh
  m.Logger.Info("Signal received, initializing clean shutdown...")
  go cmd.Close()
  m.Logger.Info("Waiting for clean shutdown...")
  select \x7b first of: <-signalCh / <-time.After(30s) / <-cmd.Closed \x7d

It is embedded as a small-step machine: external events (a signal
delivery, the 30-second timer firing, the close routine completing) and
scheduler steps of the coordinator goroutine drive a state whose
`sigBuf`/`dropped` fields model the capacity-one signal channel (the Go
signal package drops a delivery when the channel buffer is full), and
whose trace records the observable effects in program order. -/

/-- The fixed graceful-shutdown deadline, `time.After(time.Second * 30)`. -/
def shutdownTimeoutSeconds : Nat := 30

/-- Which of the three racing second-stage events resolved the select. -/
inductive Outcome where
| hardSignal
| hardTimeout
| clean
deriving DecidableEq, Repr

/-- Where the coordinator goroutine is in the run branch. -/
inductive Phase where
| start
| firstWait
| selectWait
| done (o : Outcome)
deriving DecidableEq, Repr

/-- External events and scheduler steps driving the coordinator. -/
inductive Ev where
| stepE
| sigDeliver
| timerFire
| closeDone
deriving DecidableEq, Repr

/-- Observable effects of the run branch, in program order. -/
inductive Eff where
| notifyE
| logInfo (s : String)
| goCloseE
| recvSignal
| selectDone (o : Outcome)
deriving DecidableEq, Repr

/-- The coordinator state: phase, the capacity-one signal channel buffer,
the count of signal deliveries dropped because the buffer was full, the
timer/close-completion flags, and the effect trace. -/
structure CoordState where
  phase : Phase
  sigBuf : Nat
  dropped : Nat
  timerFired : Bool
  closedDone : Bool
  trace : List Eff
deriving DecidableEq, Repr

/-- Initial coordinator state: the run branch before `signal.Notify`. -/
def initCoord : CoordState :=
{ phase := Phase.start, sigBuf := 0, dropped := 0,
  timerFired := false, closedDone := false, trace := [] }

/-- One step of the coordinator machine.  A `stepE` lets the coordinator
goroutine advance when it can; the other events record external
occurrences.  A signal delivered while the buffer (capacity one) already
holds a signal is dropped, as the Go signal package does on a full
channel.  Once a `done` phase is reached the run branch has fallen out of
the select and nothing changes any more. -/
def coordStep (s : CoordState) (e : Ev) : CoordState :=
match s.phase, e with
| Phase.done _, _ => s
| Phase.start, Ev.stepE =>
  { s with phase := Phase.firstWait,
           trace := s.trace ++ [Eff.notifyE, Eff.logInfo "Listening for signals"] }
| Phase.start, _ => s
| Phase.firstWait, Ev.sigDeliver =>
  if s.sigBuf = 0 then { s with sigBuf := 1 }
  else { s with dropped := s.dropped + 1 }
| Phase.firstWait, Ev.stepE =>
  if s.sigBuf = 0 then s
  else
    { s with phase := Phase.selectWait, sigBuf := s.sigBuf - 1,
             trace := s.trace ++
               [Eff.recvSignal,
                Eff.logInfo "Signal received, initializing clean shutdown...",
                Eff.goCloseE,
                Eff.logInfo "Waiting for clean shutdown..."] }
| Phase.firstWait, _ => s
| Phase.selectWait, Ev.sigDeliver =>
  if s.sigBuf = 0 then { s with sigBuf := 1 }
  else { s with dropped := s.dropped + 1 }
| Phase.selectWait, Ev.timerFire => { s with timerFired := true }
| Phase.selectWait, Ev.closeDone => { s with closedDone := true }
| Phase.selectWait, Ev.stepE =>
  if s.sigBuf ≠ 0 then
    { s with phase := Phase.done Outcome.hardSignal, sigBuf := s.sigBuf - 1,
             trace := s.trace ++
               [Eff.logInfo "second signal received, initializing hard shutdown",
                Eff.selectDone Outcome.hardSignal] }
  else if s.timerFired then
    { s with phase := Phase.done Outcome.hardTimeout,
             trace := s.trace ++
               [Eff.logInfo "time limit reached, initializing hard shutdown",
                Eff.selectDone Outcome.hardTimeout] }
  else if s.closedDone then
    { s with phase := Phase.done Outcome.clean,
             trace := s.trace ++
               [Eff.logInfo "server shutdown completed",
                Eff.selectDone Outcome.clean] }
  else s

/-- Run the coordinator over a schedule of events. -/
def coordRun (s : CoordState) (evs : List Ev) : CoordState :=
evs.foldl coordStep s

/-- The log lines of a trace. -/
def traceLogs : List Eff → List String
| [] => []
| Eff.logInfo s :: tl => s :: traceLogs tl
| _ :: tl => traceLogs tl

/-! ### The dispatcher, `Main.Run` -/

/-- Modelled from the spec: `cmd.ParseCommandName` is not under src/; per
the spec the first token is extracted as the command name, with the
remaining tokens as arguments, and an absent command name is empty. -/
def ParseCommandName : List String → String × List String
| [] => ("", [])
| a :: rest => (a, rest)

/-- The results of the external subsystem entry points invoked by
`Main.Run` (their code lives outside this core), plus the build-time
variables after `init`, and the value the server's close routine will
return (produced inside the `go cmd.Close()` goroutine). -/
structure Env where
  runRun : List String → Option GoError
  backupRun : List String → Option GoError
  restoreRun : List String → Option GoError
  printConfigRun : List String → Option GoError
  helpRun : List String → Option GoError
  closeErr : Option GoError
  version : String
  commit : String
  branch : String

/-- What a call of `Main.Run` produced: its return value, the subsystem
entry points it invoked (in order), the coordinator trace of the run
branch, and the standard output / standard error writes. -/
structure RunOut where
  result : Option GoError
  invoked : List String
  coordTrace : List Eff
  stdout : List String
  stderr : List String
deriving DecidableEq, Repr

/-- The error of the default branch of the switch:
`fmt.Errorf("unknown command \"%s\"\nRun 'influxd help' for usage\n\n", name)`. -/
def unknownCommandMsg (name : String) : String :=
"unknown command \"" ++ name ++ "\"" ++ "\n" ++ "Run \x27influxd help\x27 for usage" ++ "\n\n"

/-- The switch of `Main.Run` on the parsed command name.  `go cmd.Close()`
discards the close routine's return value, so `env.closeErr` is never
read.  The Go switch on strings is rendered as the equivalent
equality chain. -/
def dispatch (env : Env) (sched : List Ev) (name : String) (rest : List String) : RunOut :=
if name = "" ∨ name = "run" then
  match env.runRun rest with
  | some e =>
    { result := some (errorfS "run: " e), invoked := ["run"],
      coordTrace := [], stdout := [], stderr := [] }
  | none =>
    { result := none, invoked := ["run"],
      coordTrace := (coordRun initCoord sched).trace, stdout := [], stderr := [] }
else if name = "backup" then
  match env.backupRun rest with
  | some e =>
    { result := some (errorfS "backup: " e), invoked := ["backup"],
      coordTrace := [], stdout := [], stderr := [] }
  | none =>
    { result := none, invoked := ["backup"], coordTrace := [], stdout := [], stderr := [] }
else if name = "restore" then
  match env.restoreRun rest with
  | some e =>
    { result := some (errorfS "restore: " e), invoked := ["restore"],
      coordTrace := [], stdout := [], stderr := [] }
  | none =>
    { result := none, invoked := ["restore"], coordTrace := [], stdout := [], stderr := [] }
else if name = "config" then
  match env.printConfigRun rest with
  | some e =>
    { result := some (errorfS "config: " e), invoked := ["config"],
      coordTrace := [], stdout := [], stderr := [] }
  | none =>
    { result := none, invoked := ["config"], coordTrace := [], stdout := [], stderr := [] }
else if name = "version" then
  let out := VersionCommandRun env.version env.branch env.commit rest
  match out.result with
  | some e =>
    { result := some (errorfS "version: " e), invoked := ["version"],
      coordTrace := [], stdout := out.stdout, stderr := out.stderr }
  | none =>
    { result := none, invoked := ["version"],
      coordTrace := [], stdout := out.stdout, stderr := out.stderr }
else if name = "help" then
  match env.helpRun rest with
  | some e =>
    { result := some (errorfS "help: " e), invoked := ["help"],
      coordTrace := [], stdout := [], stderr := [] }
  | none =>
    { result := none, invoked := ["help"], coordTrace := [], stdout := [], stderr := [] }
else
  { result := some (GoError.base (unknownCommandMsg name)), invoked := [],
    coordTrace := [], stdout := [], stderr := [] }

/-- `Main.Run`: parse the command name and dispatch. -/
def MainRun (env : Env) (sched : List Ev) (args : List String) : RunOut :=
dispatch env sched (ParseCommandName args).1 (ParseCommandName args).2

/-- The `main` function around `Main.Run`: on a nil result exit 0; on an
error print it to standard error (`fmt.Fprintln(os.Stderr, err)`) and exit
with status 1.  Returns the exit status and the standard-error lines. -/
def mainExit : Option GoError → Nat × List String
| none => (0, [])
| some e => (1, [e.msg])

/-! ### Concrete environments and schedules used as witnesses -/

/-- An environment in which every subsystem succeeds. -/
def envOk : Env :=
{ runRun := fun _ => none, backupRun := fun _ => none, restoreRun := fun _ => none,
  printConfigRun := fun _ => none, helpRun := fun _ => none, closeErr := none,
  version := "1.1.0", commit := "abc123", branch := "master" }

/-- An environment in which the backup subsystem fails. -/
def envBackupFail : Env :=
{ envOk with backupRun := fun _ => some (GoError.base "disk full") }

/-- An environment in which the server's close routine returns an error. -/
def envCloseFail : Env :=
{ envOk with closeErr := some (GoError.base "close failed") }

/-- A schedule realizing a clean graceful shutdown: the coordinator starts
listening, one signal arrives and is received, the close routine
completes, and the select observes the completion. -/
def cleanSched : List Ev :=
[Ev.stepE, Ev.sigDeliver, Ev.stepE, Ev.closeDone, Ev.stepE]

/-- The trace invariant of the run branch: before `signal.Notify` the
trace is empty, and from the moment anything has been emitted the trace
starts with the registration effect followed by the readiness log — so
registration precedes the readiness announcement, which precedes every
later effect (in particular every signal receive). -/
def TraceInv (s : CoordState) : Prop :=
s.phase = Phase.start ∧ s.trace = [] ∨
  ∃ tl, s.trace = Eff.notifyE :: Eff.logInfo "Listening for signals" :: tl

/-! ### Helper lemmas about the coordinator machine -/

lemma coordRun_nil (s : CoordState) : coordRun s [] = s := rfl

lemma coordRun_cons (s : CoordState) (e : Ev) (evs : List Ev) :
    coordRun s (e :: evs) = coordRun (coordStep s e) evs := rfl

lemma coordStep_of_done (s : CoordState) (o : Outcome) (e : Ev)
    (h : s.phase = Phase.done o) : coordStep s e = s := by
  obtain ⟨ph, buf, dr, tf, cd, tr⟩ := s
  simp only at h
  subst h
  cases e <;> rfl

lemma coordRun_of_done (s : CoordState) (o : Outcome) (evs : List Ev)
    (h : s.phase = Phase.done o) : coordRun s evs = s := by
  induction evs generalizing s with
  | nil => rfl
  | cons e evs ih =>
    rw [coordRun_cons, coordStep_of_done s o e h]
    exact ih s h

lemma coordStep_trace_extend (s : CoordState) (e : Ev) :
    ∃ l, (coordStep s e).trace = s.trace ++ l := by
  obtain ⟨ph, buf, dr, tf, cd, tr⟩ := s
  cases ph <;> cases e <;>
    simp only [coordStep] <;>
    (repeat' split) <;>
    first
      | exact ⟨_, rfl⟩
      | exact ⟨[], (List.append_nil _).symm⟩

lemma coordStep_traceInv (s : CoordState) (e : Ev) (h : TraceInv s) :
    TraceInv (coordStep s e) := by
  rcases h with ⟨hph, htr⟩ | ⟨tl, htr⟩
  · obtain ⟨ph, buf, dr, tf, cd, tr⟩ := s
    simp only at hph htr
    subst hph
    subst htr
    cases e
    · exact Or.inr ⟨[], rfl⟩
    · exact Or.inl ⟨rfl, rfl⟩
    · exact Or.inl ⟨rfl, rfl⟩
    · exact Or.inl ⟨rfl, rfl⟩
  · obtain ⟨l, hl⟩ := coordStep_trace_extend s e
    refine Or.inr ⟨tl ++ l, ?_⟩
    rw [hl, htr]
    simp

lemma coordRun_traceInv (evs : List Ev) (s : CoordState) (h : TraceInv s) :
    TraceInv (coordRun s evs) := by
  induction evs generalizing s with
  | nil => exact h
  | cons e evs ih =>
    rw [coordRun_cons]
    exact ih (coordStep s e) (coordStep_traceInv s e h)

/-! ### Claim theorems -/

/-- C3: for every command name outside the fixed set
{"", "run", "backup", "restore", "config", "version", "help"}, `Main.Run`
returns an error whose message is exactly
`unknown command "<name>"` followed by the hint to run influxd help, and
no subsystem entry point is invoked. -/
theorem unknown_command_rejected (name : String)
    (h : name ∉ ["", "run", "backup", "restore", "config", "version", "help"])
    (env : Env) (sched : List Ev) (rest : List String) :
    (dispatch env sched name rest).result = some (GoError.base (unknownCommandMsg name))
    ∧ (dispatch env sched name rest).invoked = []
    ∧ unknownCommandMsg name
        = "unknown command \"" ++ name ++ "\"" ++ "\n"
            ++ "Run \x27influxd help\x27 for usage" ++ "\n\n" := by
  simp only [List.mem_cons, List.not_mem_nil, or_false, not_or] at h
  obtain ⟨h0, h1, h2, h3, h4, h5, h6⟩ := h
  refine ⟨?_, ?_, rfl⟩ <;> simp [dispatch, h0, h1, h2, h3, h4, h5, h6]

theorem unknown_command_rejected_witness :
    (dispatch envOk [] "frobnicate" []).result
        = some (GoError.base (unknownCommandMsg "frobnicate"))
    ∧ (dispatch envOk [] "frobnicate" []).invoked = []
    ∧ unknownCommandMsg "frobnicate"
        = "unknown command \"frobnicate\"" ++ "\n"
            ++ "Run \x27influxd help\x27 for usage" ++ "\n\n" := by
  have h := unknown_command_rejected "frobnicate" (by decide) envOk [] []
  exact ⟨h.1, h.2.1, by rw [h.2.2]; rfl⟩

/-- C6: the process exits with status 0 when `Main.Run` returns without
error, and with status 1 on any propagated error, in which case the
error's message is written to standard error. -/
theorem exit_status_on_result (env : Env) (sched : List Ev) (args : List String) :
    ((MainRun env sched args).result = none →
        mainExit (MainRun env sched args).result = (0, []))
    ∧ ∀ e, (MainRun env sched args).result = some e →
        mainExit (MainRun env sched args).result = (1, [e.msg]) := by
  constructor
  · intro h
    rw [h]
    rfl
  · intro e h
    rw [h]
    rfl

theorem exit_status_on_result_witness :
    mainExit (MainRun envOk [] ["version"]).result = (0, [])
    ∧ mainExit (MainRun envBackupFail [] ["backup"]).result
        = (1, [(GoError.base "backup: disk full").msg]) := by
  constructor
  · exact (exit_status_on_result envOk [] ["version"]).1 rfl
  · exact (exit_status_on_result envBackupFail [] ["backup"]).2
      (GoError.base "backup: disk full") rfl

/-- C7: an absent or empty command name is dispatched identically to the
explicit command name "run": the same run subsystem is invoked with the
same remaining arguments. -/
theorem empty_name_runs_run :
    (∀ (env : Env) (sched : List Ev) (rest : List String),
        dispatch env sched "" rest = dispatch env sched "run" rest)
    ∧ (∀ (env : Env) (sched : List Ev),
        MainRun env sched [] = dispatch env sched "run" [])
    ∧ (∀ (env : Env) (sched : List Ev) (rest : List String),
        (dispatch env sched "" rest).invoked = ["run"]) := by
  refine ⟨?_, ?_, ?_⟩
  · intro env sched rest
    simp [dispatch]
  · intro env sched
    simp [MainRun, ParseCommandName, dispatch]
  · intro env sched rest
    simp only [dispatch, if_pos (Or.inl rfl)]
    cases env.runRun rest <;> rfl

/-- C9: once the run subsystem starts successfully, `Main.Run` returns nil
whatever shutdown outcome the schedule produces, so a hard shutdown exits
with the same status 0 as a clean one. -/
theorem run_mode_returns_nil (env : Env) (sched : List Ev) (rest : List String)
    (h : env.runRun rest = none) :
    (dispatch env sched "run" rest).result = none
    ∧ mainExit (dispatch env sched "run" rest).result = (0, []) := by
  refine ⟨?_, ?_⟩ <;> simp [dispatch, h, mainExit]

theorem run_mode_returns_nil_witness :
    (dispatch envOk [Ev.stepE, Ev.sigDeliver, Ev.stepE, Ev.timerFire, Ev.stepE]
        "run" []).result = none
    ∧ mainExit (dispatch envOk [Ev.stepE, Ev.sigDeliver, Ev.stepE, Ev.timerFire, Ev.stepE]
        "run" []).result = (0, []) :=
  run_mode_returns_nil envOk [Ev.stepE, Ev.sigDeliver, Ev.stepE, Ev.timerFire, Ev.stepE] [] rfl

/-- C8: on success the version subcommand prints exactly one line of the
form `InfluxDB v<version> (git: <branch> <commit>)`, where version,
branch and commit are the build-time variables after `init` replaced each
unset (empty) one with "unknown". -/
theorem version_line_format (vRaw bRaw cRaw : String) (args : List String)
    (h : flagParse args = none) :
    (VersionCommandRun (initVar vRaw) (initVar bRaw) (initVar cRaw) args).stdout
      = [versionLine (initVar vRaw) (initVar bRaw) (initVar cRaw)]
    ∧ (∀ x y z, versionLine x y z
        = "InfluxDB v" ++ x ++ " (git: " ++ y ++ " " ++ z ++ ")\n")
    ∧ initVar "" = "unknown"
    ∧ (∀ s, s ≠ "" → initVar s = s)
    ∧ (∀ (env : Env) (sched : List Ev) (rest : List String),
        (dispatch env sched "version" rest).stdout
          = (VersionCommandRun env.version env.branch env.commit rest).stdout) := by
  refine ⟨?_, fun x y z => rfl, rfl, ?_, ?_⟩
  · simp [VersionCommandRun, h]
  · intro s hs
    simp [initVar, hs]
  · intro env sched rest
    simp only [dispatch]
    norm_num
    cases hr : (VersionCommandRun env.version env.branch env.commit rest).result <;>
      simp [hr]

theorem version_line_format_witness :
    flagParse ["rest"] = none
    ∧ (VersionCommandRun (initVar "") (initVar "master") (initVar "abc123") ["rest"]).stdout
        = [versionLine (initVar "") (initVar "master") (initVar "abc123")]
    ∧ initVar "" = "unknown"
    ∧ versionLine (initVar "") (initVar "master") (initVar "abc123")
        = "InfluxDB vunknown (git: master abc123)\n" := by
  have h := version_line_format "" "master" "abc123" ["rest"] rfl
  exact ⟨rfl, h.1, h.2.2.1, rfl⟩

/-- C10: `VersionCommand.Run` returns an error exactly when parsing its
flag arguments fails — including the help flag `-h`, which yields
`flag.ErrHelp` — and on any successful parse it prints the version line
and returns nil, so `influxd version -h` exits with status 1. -/
theorem version_errors_iff_flag_parse (v b c : String) (args : List String) :
    ((VersionCommandRun v b c args).result = none ↔ flagParse args = none)
    ∧ (flagParse args = none →
        (VersionCommandRun v b c args).stdout = [versionLine v b c]
        ∧ (VersionCommandRun v b c args).result = none)
    ∧ flagParse ["-h"] = some FlagError.errHelp
    ∧ (∀ (env : Env) (sched : List Ev),
        mainExit (MainRun env sched ["version", "-h"]).result
          = (1, ["version: flag: help requested"])) := by
  refine ⟨?_, ?_, rfl, ?_⟩
  · cases hf : flagParse args <;> simp [VersionCommandRun, hf]
  · intro h
    simp [VersionCommandRun, h]
  · intro env sched
    rfl

theorem version_errors_iff_flag_parse_witness :
    ((VersionCommandRun "1.1.0" "master" "abc123" ["-x"]).result = none
        ↔ flagParse ["-x"] = none)
    ∧ (VersionCommandRun "1.1.0" "master" "abc123" []).stdout
        = [versionLine "1.1.0" "master" "abc123"]
    ∧ mainExit (MainRun envOk [] ["version", "-h"]).result
        = (1, ["version: flag: help requested"]) := by
  refine ⟨(version_errors_iff_flag_parse "1.1.0" "master" "abc123" ["-x"]).1, ?_, ?_⟩
  · exact ((version_errors_iff_flag_parse "1.1.0" "master" "abc123" []).2.1 rfl).1
  · exact (version_errors_iff_flag_parse "1.1.0" "master" "abc123" []).2.2.2 envOk []

/-- C4 counterexample: the claim that the wrapped error preserves the
original for programmatic inspection fails — `Main.Run` wraps with the
`%s` verb, so the returned error carries only message text: its `Unwrap`
is nil and the original error is nowhere in its chain. -/
theorem error_wrapping_no_chain_counterexample :
    envBackupFail.backupRun [] = some (GoError.base "disk full")
    ∧ (MainRun envBackupFail [] ["backup"]).result
        = some (GoError.base "backup: disk full")
    ∧ (GoError.base "backup: disk full").Unwrap = none
    ∧ GoError.base "disk full" ∉ (GoError.base "backup: disk full").chain := by
  refine ⟨rfl, rfl, rfl, ?_⟩
  simp [GoError.chain]

/-- C4 (amended): for every subsystem error returned by a dispatched
command, `Main.Run` wraps the error with the failing command's name as a
prefix of the message; only the message text is preserved — the `%s` verb
produces a flat error whose `Unwrap` is nil and whose chain is empty, so
the original error is not recoverable by error chaining. -/
theorem error_wrapping_message_only (env : Env) (sched : List Ev)
    (rest : List String) (e : GoError) :
    (env.runRun rest = some e →
        (dispatch env sched "run" rest).result
          = some (GoError.base ("run: " ++ e.msg)))
    ∧ (env.backupRun rest = some e →
        (dispatch env sched "backup" rest).result
          = some (GoError.base ("backup: " ++ e.msg)))
    ∧ (env.restoreRun rest = some e →
        (dispatch env sched "restore" rest).result
          = some (GoError.base ("restore: " ++ e.msg)))
    ∧ (env.printConfigRun rest = some e →
        (dispatch env sched "config" rest).result
          = some (GoError.base ("config: " ++ e.msg)))
    ∧ (env.helpRun rest = some e →
        (dispatch env sched "help" rest).result
          = some (GoError.base ("help: " ++ e.msg)))
    ∧ (∀ fe, flagParse rest = some fe →
        (dispatch env sched "version" rest).result
          = some (GoError.base ("version: " ++ flagErrMsg fe)))
    ∧ (∀ pre x, (errorfS pre x).Unwrap = none ∧ (errorfS pre x).chain = []) := by
  refine ⟨?_, ?_, ?_, ?_, ?_, ?_, fun pre x => ⟨rfl, rfl⟩⟩ <;>
    first
      | (intro h
         simp [dispatch, h, errorfS])
      | (intro fe h
         simp [dispatch, VersionCommandRun, h, errorfS, GoError.msg])

theorem error_wrapping_message_only_witness :
    envBackupFail.backupRun ["db"] = some (GoError.base "disk full")
    ∧ (dispatch envBackupFail [] "backup" ["db"]).result
        = some (GoError.base ("backup: " ++ (GoError.base "disk full").msg))
    ∧ (errorfS "backup: " (GoError.base "disk full")).Unwrap = none :=
  ⟨rfl,
   (error_wrapping_message_only envBackupFail [] ["db"] (GoError.base "disk full")).2.1 rfl,
   ((error_wrapping_message_only envBackupFail [] ["db"] (GoError.base "disk full")).2.2.2.2.2.2
      "backup: " (GoError.base "disk full")).1⟩

/-- C1: once the coordinator is blocked in the second-stage select with
none of the three events pending, it stays blocked until one fires
(`coordStep` on a scheduler step is the identity), the first of the three
racing events — a second signal, the 30-second deadline, the close
completion — alone decides the outcome with the corresponding log line,
and whatever events fire afterwards are ignored: a finished coordinator
never changes again, so no second outcome is handled or logged. -/
theorem select_first_event_decides (s : CoordState)
    (hp : s.phase = Phase.selectWait) (hb : s.sigBuf = 0)
    (ht : s.timerFired = false) (hc : s.closedDone = false) :
    shutdownTimeoutSeconds = 30
    ∧ coordStep s Ev.stepE = s
    ∧ (∀ evs, coordRun s (Ev.sigDeliver :: Ev.stepE :: evs) =
        { s with phase := Phase.done Outcome.hardSignal,
                 trace := s.trace ++
                   [Eff.logInfo "second signal received, initializing hard shutdown",
                    Eff.selectDone Outcome.hardSignal] })
    ∧ (∀ evs, coordRun s (Ev.timerFire :: Ev.stepE :: evs) =
        { s with phase := Phase.done Outcome.hardTimeout, timerFired := true,
                 trace := s.trace ++
                   [Eff.logInfo "time limit reached, initializing hard shutdown",
                    Eff.selectDone Outcome.hardTimeout] })
    ∧ (∀ evs, coordRun s (Ev.closeDone :: Ev.stepE :: evs) =
        { s with phase := Phase.done Outcome.clean, closedDone := true,
                 trace := s.trace ++
                   [Eff.logInfo "server shutdown completed",
                    Eff.selectDone Outcome.clean] })
    ∧ (∀ (s2 : CoordState) (o : Outcome) (evs : List Ev),
        s2.phase = Phase.done o → coordRun s2 evs = s2) := by
  obtain ⟨ph, buf, dr, tf, cd, tr⟩ := s
  simp only at hp hb ht hc
  subst hp
  subst hb
  subst ht
  subst hc
  refine ⟨rfl, rfl, ?_, ?_, ?_, fun s2 o evs h2 => coordRun_of_done s2 o evs h2⟩
  · intro evs
    rw [coordRun_cons, coordRun_cons]
    exact coordRun_of_done _ Outcome.hardSignal evs rfl
  · intro evs
    rw [coordRun_cons, coordRun_cons]
    exact coordRun_of_done _ Outcome.hardTimeout evs rfl
  · intro evs
    rw [coordRun_cons, coordRun_cons]
    exact coordRun_of_done _ Outcome.clean evs rfl

theorem select_first_event_decides_witness :
    shutdownTimeoutSeconds = 30
    ∧ coordRun
        { phase := Phase.selectWait, sigBuf := 0, dropped := 0,
          timerFired := false, closedDone := false, trace := [] }
        [Ev.timerFire, Ev.stepE, Ev.sigDeliver, Ev.closeDone]
      = { phase := Phase.done Outcome.hardTimeout, sigBuf := 0, dropped := 0,
          timerFired := true, closedDone := false,
          trace := [Eff.logInfo "time limit reached, initializing hard shutdown",
                    Eff.selectDone Outcome.hardTimeout] } := by
  have h := select_first_event_decides
    { phase := Phase.selectWait, sigBuf := 0, dropped := 0,
      timerFired := false, closedDone := false, trace := [] } rfl rfl rfl rfl
  exact ⟨h.1, h.2.2.2.1 [Ev.sigDeliver, Ev.closeDone]⟩

/-- C2 counterexample: the claim that no termination signal arriving after
the coordinator begins listening is ever missed is false.  On the
schedule below two signals are delivered after the readiness log while
the coordinator has not yet been scheduled: the capacity-one channel
holds the first and drops the second (`dropped = 1`).  The coordinator
then observes only the first; with the buffer empty it stays blocked in
the select no matter how often it is scheduled — the second queued signal
is never observed. -/
theorem signal_never_missed_counterexample :
    (coordRun initCoord [Ev.stepE, Ev.sigDeliver, Ev.sigDeliver, Ev.stepE]).dropped = 1
    ∧ (coordRun initCoord [Ev.stepE, Ev.sigDeliver, Ev.sigDeliver, Ev.stepE]).sigBuf = 0
    ∧ (coordRun initCoord
        [Ev.stepE, Ev.sigDeliver, Ev.sigDeliver, Ev.stepE, Ev.stepE, Ev.stepE]).phase
        = Phase.selectWait := by
  exact ⟨rfl, rfl, rfl⟩

/-- C2 (amended): signal registration completes before the coordinator
announces readiness and before it blocks — every nonempty trace starts
with the Notify effect followed by the readiness log, and any signal
receive comes after both.  A signal arriving after listening begins is
buffered (and the next scheduler step observes it) only when the
capacity-one channel buffer is empty at delivery; a signal delivered
while another is still pending is dropped, so not every queued signal
event is observed. -/
theorem signal_registration_order_and_buffer :
    (∀ sched : List Ev, (coordRun initCoord sched).trace = []
        ∨ ∃ tl, (coordRun initCoord sched).trace
            = Eff.notifyE :: Eff.logInfo "Listening for signals" :: tl)
    ∧ (∀ s : CoordState, (s.phase = Phase.firstWait ∨ s.phase = Phase.selectWait) →
        s.sigBuf = 0 → coordStep s Ev.sigDeliver = { s with sigBuf := 1 })
    ∧ (∀ s : CoordState, (s.phase = Phase.firstWait ∨ s.phase = Phase.selectWait) →
        s.sigBuf ≠ 0 → coordStep s Ev.sigDeliver = { s with dropped := s.dropped + 1 })
    ∧ (∀ s : CoordState, s.phase = Phase.firstWait → s.sigBuf ≠ 0 →
        (coordStep s Ev.stepE).trace = s.trace ++
          [Eff.recvSignal,
           Eff.logInfo "Signal received, initializing clean shutdown...",
           Eff.goCloseE,
           Eff.logInfo "Waiting for clean shutdown..."]) := by
  refine ⟨?_, ?_, ?_, ?_⟩
  · intro sched
    have h := coordRun_traceInv sched initCoord (Or.inl ⟨rfl, rfl⟩)
    rcases h with ⟨_, htr⟩ | ⟨tl, htr⟩
    · exact Or.inl htr
    · exact Or.inr ⟨tl, htr⟩
  · intro s hph hb
    obtain ⟨ph, buf, dr, tf, cd, tr⟩ := s
    simp only at hph hb
    subst hb
    rcases hph with hph | hph <;> subst hph <;> rfl
  · intro s hph hb
    obtain ⟨ph, buf, dr, tf, cd, tr⟩ := s
    simp only at hph hb
    rcases hph with hph | hph <;> subst hph <;> simp [coordStep, hb]
  · intro s hph hb
    obtain ⟨ph, buf, dr, tf, cd, tr⟩ := s
    simp only at hph hb
    subst hph
    simp [coordStep, hb]

theorem signal_registration_order_and_buffer_witness :
    ((coordRun initCoord cleanSched).trace = []
        ∨ ∃ tl, (coordRun initCoord cleanSched).trace
            = Eff.notifyE :: Eff.logInfo "Listening for signals" :: tl)
    ∧ coordStep
        { phase := Phase.firstWait, sigBuf := 0, dropped := 0,
          timerFired := false, closedDone := false, trace := [] } Ev.sigDeliver
      = { phase := Phase.firstWait, sigBuf := 1, dropped := 0,
          timerFired := false, closedDone := false, trace := [] }
    ∧ coordStep
        { phase := Phase.firstWait, sigBuf := 1, dropped := 0,
          timerFired := false, closedDone := false, trace := [] } Ev.sigDeliver
      = { phase := Phase.firstWait, sigBuf := 1, dropped := 1,
          timerFired := false, closedDone := false, trace := [] } := by
  refine ⟨signal_registration_order_and_buffer.1 cleanSched, ?_, ?_⟩
  · exact signal_registration_order_and_buffer.2.1
      { phase := Phase.firstWait, sigBuf := 0, dropped := 0,
        timerFired := false, closedDone := false, trace := [] } (Or.inl rfl) rfl
  · exact signal_registration_order_and_buffer.2.2.1
      { phase := Phase.firstWait, sigBuf := 1, dropped := 0,
        timerFired := false, closedDone := false, trace := [] } (Or.inl rfl) (by decide)

/-- C5 counterexample: the claim that an error returned by the close
routine is logged is false.  In a full clean-shutdown run where the close
routine returns an error, the coordinator's log lines are exactly the
four fixed messages — the close error appears in none of them (the call
site `go cmd.Close()` discards the return value) — and the process still
exits cleanly. -/
theorem close_error_logged_counterexample :
    envCloseFail.closeErr = some (GoError.base "close failed")
    ∧ (MainRun envCloseFail cleanSched ["run"]).result = none
    ∧ traceLogs (MainRun envCloseFail cleanSched ["run"]).coordTrace
        = ["Listening for signals",
           "Signal received, initializing clean shutdown...",
           "Waiting for clean shutdown...",
           "server shutdown completed"]
    ∧ "close failed" ∉ traceLogs (MainRun envCloseFail cleanSched ["run"]).coordTrace := by
  refine ⟨rfl, rfl, rfl, ?_⟩
  decide

/-- C5 (amended): the close routine is invoked asynchronously — the same
coordinator step that spawns it proceeds to wait on the select, so the
close call never blocks the coordinator from observing further events,
and the coordinator reaches the deadline outcome even if the close never
completes.  The value the close routine returns is discarded by
`go cmd.Close()`: the whole behavior of `Main.Run` is independent of it,
so in particular it is never logged and neither prevents nor delays
process exit. -/
theorem close_async_error_discarded :
    (∀ (env : Env) (e1 e2 : Option GoError) (sched : List Ev) (args : List String),
        MainRun { env with closeErr := e1 } sched args
          = MainRun { env with closeErr := e2 } sched args)
    ∧ (∀ s : CoordState, s.phase = Phase.firstWait → s.sigBuf ≠ 0 →
        (coordStep s Ev.stepE).phase = Phase.selectWait
        ∧ ∃ tl, (coordStep s Ev.stepE).trace = s.trace ++ (Eff.recvSignal ::
            Eff.logInfo "Signal received, initializing clean shutdown..." ::
            Eff.goCloseE :: tl))
    ∧ (coordRun initCoord [Ev.stepE, Ev.sigDeliver, Ev.stepE, Ev.timerFire, Ev.stepE]).phase
        = Phase.done Outcome.hardTimeout := by
  refine ⟨?_, ?_, rfl⟩
  · intro env e1 e2 sched args
    rfl
  · intro s hph hb
    obtain ⟨ph, buf, dr, tf, cd, tr⟩ := s
    simp only at hph hb
    subst hph
    refine ⟨?_, ⟨[Eff.logInfo "Waiting for clean shutdown..."], ?_⟩⟩ <;>
      simp [coordStep, hb]

theorem close_async_error_discarded_witness :
    MainRun { envOk with closeErr := some (GoError.base "close failed") } cleanSched ["run"]
      = MainRun { envOk with closeErr := none } cleanSched ["run"]
    ∧ (coordStep
        { phase := Phase.firstWait, sigBuf := 1, dropped := 0,
          timerFired := false, closedDone := false, trace := [] } Ev.stepE).phase
      = Phase.selectWait := by
  refine ⟨close_async_error_discarded.1 envOk
      (some (GoError.base "close failed")) none cleanSched ["run"], ?_⟩
  exact (close_async_error_discarded.2.1
    { phase := Phase.firstWait, sigBuf := 1, dropped := 0,
      timerFired := false, closedDone := false, trace := [] } rfl (by decide)).1

end Influxd
